import Mathlib

/-
Shallow embedding of the slingshot game's launch-detection and
responsive-layout logic (src/game.js).  The file holds two script
variants: the viewport-adaptive one (modelled by `GState` and the
handlers below) and the earlier fixed-canvas one (modelled by
`G2State`).  JS numbers are modelled by ℚ; `Math.sqrt` is an external
numeric primitive and is passed in as an oracle `sq : ℚ → ℚ`, pinned
by hypotheses of the form `0 ≤ st ∧ st ^ 2 = dx ^ 2 + dy ^ 2` where a
theorem depends on its value.
-/

namespace AngyBirds

/-- A 2D point / vector, as used for `position`, `velocity`, `pointA`. -/
structure Vec where
  x : ℚ
  y : ℚ
deriving DecidableEq

/-- One destructible block: position, size and render color. -/
structure Block where
  x : ℚ
  y : ℚ
  w : ℚ
  h : ℚ
  color : String
deriving DecidableEq

/-- Embedding of `getGameDimensions` (game.js lines 36-48): layout values derived from
the viewport, reference size 800×600. -/
structure GameDims where
  width : ℚ
  height : ℚ
  scale : ℚ
  baseHeight : ℚ
  blockBaseX : ℚ
  slingX : ℚ
deriving DecidableEq

def getGameDimensions (w h : ℚ) : GameDims :=
  { width := w
    height := h
    scale := min (w / 800) (h / 600)
    baseHeight := h - h * (2 / 10)
    blockBaseX := w * (7 / 10)
    slingX := w * (2 / 10) }

/-- Embedding of `blockColors` (game.js line 91). -/
def blockColors : List String := ["#3498db", "#e67e22", "#2ecc71", "#9b59b6"]

/-- Embedding of `Math.sign` on a rational (the source never produces NaN here). -/
def signQ (q : ℚ) : ℤ := if q < 0 then -1 else if 0 < q then 1 else 0

def defaultBlock : Block := { x := 0, y := 0, w := 0, h := 0, color := "" }

/-- Embedding of `createBlocks` (game.js lines 94-114): the 4-row pyramid, row `i`
(bottom-to-top) holding `4 - i` blocks. -/
def createBlocks (d : GameDims) : List Block :=
  let blockSize := 45 * d.scale
  let spacing := blockSize * (5 / 4)
  (List.range 4).flatMap (fun i =>
    (List.range (4 - i)).map (fun j =>
      { x := d.blockBaseX + (j : ℚ) * spacing + (i : ℚ) * (spacing / 2)
        y := d.baseHeight - (i : ℚ) * spacing
        w := blockSize
        h := blockSize
        color := blockColors.getD i "" }))

/-- The `(row, col)` pair under which `createBlocks` produced the block of a
given index: indices 0-3 form row 0, 4-6 row 1, 7-8 row 2, 9 row 3. -/
def createRowCol (k : ℕ) : ℕ × ℕ :=
  if k < 4 then (0, k)
  else if k < 7 then (1, k - 4)
  else if k < 9 then (2, k - 7)
  else (3, k - 9)

/-- The `(row, col)` derivation of `handleResize` (game.js lines 346-347):
`row = Math.floor(index / 4); col = index % (4 - row)`. -/
def resizeRowCol (k : ℕ) : ℕ × ℕ := (k / 4, k % (4 - k / 4))

/-- The block spacing `blockSize * 1.25` of `createBlocks`. -/
def spacingOf (d : GameDims) : ℚ := 45 * d.scale * (5 / 4)

/-- The placement formula of `createBlocks` for row `i`, column `j`,
with the color written as `colorSequence[i % colorSequence.length]`. -/
def blockAt (d : GameDims) (i j : ℕ) : Block :=
  { x := d.blockBaseX + (j : ℚ) * spacingOf d + (i : ℚ) * (spacingOf d / 2)
    y := d.baseHeight - (i : ℚ) * spacingOf d
    w := 45 * d.scale
    h := 45 * d.scale
    color := blockColors.getD (i % blockColors.length) "" }

/-- Mutable session state of the viewport-adaptive variant: the module
globals `gameDimensions`, `ground`, `ball`, `sling`, `ballLaunched`,
`initialPull`, `mouseConstraint.body`, `blocks`, `isEditMode`, together
with world membership of ball and sling.  `orphanSlings` counts sling
constraints left in the world whose variable reference was dropped. -/
structure GState where
  dims : GameDims
  groundPos : Vec
  groundWidth : ℚ
  ballPos : Vec
  ballVel : Vec
  ballInWorld : Bool
  ballLaunched : Bool
  initialPull : Option (ℤ × ℤ)
  mouseOnBall : Bool
  slingInWorld : Bool
  slingPointA : Vec
  orphanSlings : ℕ
  blocks : List Block
  isEditMode : Bool
deriving DecidableEq

/-- Initial script state (game.js lines 50-162) for a `w × h` viewport. -/
def initState (w h : ℚ) : GState :=
  let d := getGameDimensions w h
  { dims := d
    groundPos := ⟨d.width / 2, d.height - 10⟩
    groundWidth := d.width
    ballPos := ⟨d.slingX, d.baseHeight⟩
    ballVel := ⟨0, 0⟩
    ballInWorld := true
    ballLaunched := false
    initialPull := none
    mouseOnBall := false
    slingInWorld := true
    slingPointA := ⟨d.slingX, d.baseHeight⟩
    orphanSlings := 0
    blocks := createBlocks d
    isEditMode := false }

/-- Embedding of the `startdrag` handler (game.js lines 165-169); the library also points
`mouseConstraint.body` at the grabbed body. -/
def startdrag (bodyIsBall : Bool) (s : GState) : GState :=
  if bodyIsBall = true then { s with mouseOnBall := true, initialPull := none }
  else { s with mouseOnBall := false }

/-- Embedding of the `mousemove` handler (game.js lines 172-214): the overshoot-release
path.  `sq` is the `Math.sqrt` oracle. -/
def mousemoveTick (sq : ℚ → ℚ) (s : GState) : GState :=
  if s.ballLaunched = false ∧ s.mouseOnBall = true then
    let dx := s.ballPos.x - s.dims.slingX
    let dy := s.ballPos.y - s.dims.baseHeight
    let ip := s.initialPull.getD (signQ dx, signQ dy)
    let cp : ℤ × ℤ := (signQ dx, signQ dy)
    if ip.1 ≠ 0 ∧ ip.1 ≠ cp.1 then
      let stretch := sq (dx ^ 2 + dy ^ 2)
      let sf := min (stretch * (2 / 1000)) (3 / 10)
      { s with initialPull := some ip
               ballLaunched := true
               ballVel := ⟨-dx * sf, -dy * sf⟩
               slingInWorld := false
               mouseOnBall := false }
    else
      { s with initialPull := some ip }
  else s

/-- Embedding of the `enddrag` handler of the adaptive variant (game.js lines 217-240):
the explicit-release path. -/
def enddrag1 (sq : ℚ → ℚ) (bodyIsBall : Bool) (s : GState) : GState :=
  if bodyIsBall = true ∧ s.ballLaunched = false then
    let dx := s.ballPos.x - s.dims.slingX
    let dy := s.ballPos.y - s.dims.baseHeight
    let stretch := sq (dx ^ 2 + dy ^ 2)
    let sf := min (stretch * (2 / 1000)) (3 / 10)
    { s with ballLaunched := true
             ballVel := ⟨-dx * sf, -dy * sf⟩
             slingInWorld := false }
  else s

/-- Embedding of `resetGame` of the adaptive variant (game.js lines 243-286).  Note:
the source removes the old ball but never `World.remove`s the old sling;
if it was still in the world it stays there with its reference dropped. -/
def resetGame (s : GState) : GState :=
  { s with
    ballInWorld := true
    ballPos := ⟨s.dims.slingX, s.dims.baseHeight⟩
    ballVel := ⟨0, 0⟩
    blocks := if s.isEditMode = false ∧ s.blocks = [] then createBlocks s.dims else s.blocks
    orphanSlings := s.orphanSlings + (if s.slingInWorld = true then 1 else 0)
    slingInWorld := true
    slingPointA := ⟨s.dims.slingX, s.dims.baseHeight⟩
    ballLaunched := false
    initialPull := none
    mouseOnBall := false }

/-- The block-repositioning loop of `handleResize` (game.js lines 343-353),
carrying the running index. -/
def repositionBlocks (d : GameDims) : ℕ → List Block → List Block
  | _, [] => []
  | k, b :: bs =>
    let blockSize := 45 * d.scale
    let spacing := blockSize * (5 / 4)
    let rc := resizeRowCol k
    { b with x := d.blockBaseX + (rc.2 : ℚ) * spacing + (rc.1 : ℚ) * (spacing / 2)
             y := d.baseHeight - (rc.1 : ℚ) * spacing } :: repositionBlocks d (k + 1) bs

/-- Embedding of `handleResize` (game.js lines 299-373); the render/runner bookkeeping
has no effect on the modelled state.  The guard on the ball is
`!ballLaunched && ball`, and the `ball` variable is always non-null. -/
def handleResize (w h : ℚ) (s : GState) : GState :=
  let d := getGameDimensions w h
  { s with
    dims := d
    groundPos := ⟨d.width / 2, d.height - 10⟩
    groundWidth := d.width
    ballPos := if s.ballLaunched = false then ⟨d.slingX, d.baseHeight⟩ else s.ballPos
    slingPointA := if s.ballLaunched = false then ⟨d.slingX, d.baseHeight⟩ else s.slingPointA
    blocks := repositionBlocks d 0 s.blocks }

/-- Embedding of `toggleEditMode` (game.js lines 582-600): entry removes the unlaunched
ball and the sling from the world; exit calls `resetGame`. -/
def toggleEditMode (enable : Bool) (s : GState) : GState :=
  if enable = true then
    { s with isEditMode := true
             ballInWorld := if s.ballLaunched = false then false else s.ballInWorld
             slingInWorld := false }
  else
    resetGame { s with isEditMode := false }

/-- A run of `mousemove` ticks: before each tick the physics has moved the
ball to the next recorded position. -/
def runMoves (sq : ℚ → ℚ) (s : GState) : List Vec → GState
  | [] => s
  | p :: ps => runMoves sq (mousemoveTick sq { s with ballPos := p }) ps

/-- The velocity the overshoot path assigns when it fires with the ball at
`p` under dimensions `d`. -/
def fireVel (sq : ℚ → ℚ) (d : GameDims) (p : Vec) : Vec :=
  let dx := p.x - d.slingX
  let dy := p.y - d.baseHeight
  let sf := min (sq (dx ^ 2 + dy ^ 2) * (2 / 1000)) (3 / 10)
  ⟨-dx * sf, -dy * sf⟩

/-- Modelled from the spec: the velocity law both launch paths are claimed
to share, with the stretch distance `|pull|` passed explicitly. -/
def specLaunchVelocity (pull : Vec) (stretch : ℚ) : Vec :=
  let sf := min (stretch * (2 / 1000)) (3 / 10)
  ⟨-pull.x * sf, -pull.y * sf⟩

/-- Squared Euclidean norm, used to compare speeds without `Math.sqrt`. -/
def normSq (v : Vec) : ℚ := v.x ^ 2 + v.y ^ 2

/-- The pull displacement `proj - anchor` of a state. -/
def pullOf (s : GState) : Vec :=
  ⟨s.ballPos.x - s.dims.slingX, s.ballPos.y - s.dims.baseHeight⟩

/-- Tether invariant: the sling constraint is in the world exactly when
the current projectile is in the world and has not launched. -/
def slingOk (s : GState) : Prop :=
  s.slingInWorld = (!s.ballLaunched && s.ballInWorld)

/-- The observables `reset()` is claimed to normalise. -/
def resetObs (s : GState) :
    Vec × Vec × Bool × Option (ℤ × ℤ) × Bool × Vec × List Block :=
  (s.ballPos, s.ballVel, s.ballLaunched, s.initialPull,
   s.slingInWorld, s.slingPointA, s.blocks)

/-- The current pull sign pair `(sign(proj.x - anchor.x), sign(proj.y - anchor.y))`. -/
def curSign (s : GState) : ℤ × ℤ :=
  (signQ (s.ballPos.x - s.dims.slingX), signQ (s.ballPos.y - s.dims.baseHeight))

/-- The initial pull sign the `mousemove` handler works with: the stored
one, or — on the capturing tick — the current one. -/
def effPull (s : GState) : ℤ × ℤ := s.initialPull.getD (curSign s)

/-- State of the fixed-canvas variant (game.js lines 627-778):
`pendingSlingTimeout` records a scheduled `setTimeout` that will remove
the sling 100 ms later. -/
structure G2State where
  innerWidth : ℚ
  innerHeight : ℚ
  ballPos : Vec
  ballVel : Vec
  ballLaunched : Bool
  slingInWorld : Bool
  pendingSlingTimeout : Bool
deriving DecidableEq

/-- Initial state of the fixed-canvas variant (game.js lines 665-721). -/
def init2State (w h : ℚ) : G2State :=
  { innerWidth := w
    innerHeight := h
    ballPos := ⟨150, h - 200⟩
    ballVel := ⟨0, 0⟩
    ballLaunched := false
    slingInWorld := true
    pendingSlingTimeout := false }

/-- Embedding of the `enddrag` handler of the fixed-canvas variant (game.js lines 724-739):
velocity `(pos - anchor) * 0.1`, sling removal deferred to a timeout. -/
def enddrag2 (bodyIsBall : Bool) (s : G2State) : G2State :=
  if bodyIsBall = true ∧ s.ballLaunched = false then
    { s with ballLaunched := true
             ballVel := ⟨(s.ballPos.x - 150) * (1 / 10),
                         (s.ballPos.y - (s.innerHeight - 200)) * (1 / 10)⟩
             pendingSlingTimeout := true }
  else s

/-- The deferred `setTimeout` callback (game.js lines 735-737) firing. -/
def slingTimeout (s : G2State) : G2State :=
  if s.pendingSlingTimeout = true then
    { s with slingInWorld := false, pendingSlingTimeout := false }
  else s

/- Concrete states used by witnesses and counterexamples. -/

def dims800 : GameDims := getGameDimensions 800 600

/-- A PULLING state whose gesture started pulling left (initial sign -1)
and whose ball now sits right of the anchor (160, 480). -/
def sFire : GState :=
  { initState 800 600 with
      mouseOnBall := true, initialPull := some (-1, 1), ballPos := ⟨200, 470⟩ }

/-- A PULLING state of a purely vertical gesture (initial x-sign 0). -/
def sVert : GState :=
  { initState 800 600 with
      mouseOnBall := true, initialPull := some (0, 1), ballPos := ⟨160, 500⟩ }

/-- A PULLING state that started pulling left from the 800×600 anchor. -/
def sStart : GState :=
  { initState 800 600 with
      mouseOnBall := true, initialPull := some (-1, 1), ballPos := ⟨100, 500⟩ }

/-- A PULLING state pulled to (100, 560): displacement (-60, 80) from the
anchor (160, 480), stretch 100, with a sign-flipped gesture so the
overshoot path fires. -/
def sDiag : GState :=
  { initState 800 600 with
      mouseOnBall := true, initialPull := some (1, -1), ballPos := ⟨100, 560⟩ }

/-- A HELD state pulled 300 to the left of the anchor (stretch 300). -/
def sPull300 : GState := { initState 800 600 with ballPos := ⟨-140, 480⟩ }

/-- A HELD state pulled 150 to the left of the anchor (stretch 150 = CAP/K). -/
def sPull150 : GState := { initState 800 600 with ballPos := ⟨10, 480⟩ }

/-- A fixed-canvas-variant state pulled 150 to the left of its anchor
(150, 400) for an 800×600 window. -/
def s2Pull : G2State := { init2State 800 600 with ballPos := ⟨0, 400⟩ }

/-- A fixed-canvas-variant state pulled to (50, 450): displacement
(-100, 50) from its anchor (150, 400). -/
def s2Up : G2State := { init2State 800 600 with ballPos := ⟨50, 450⟩ }

/-- A LAUNCHED state with the ball in flight at (300, 200). -/
def sLaunched : GState :=
  { initState 800 600 with
      ballLaunched := true, ballPos := ⟨300, 200⟩, ballVel := ⟨5, -3⟩ }

/-- A single block left over from a played session. -/
def leftoverBlock : Block :=
  { x := 123, y := 45, w := 45, h := 45, color := "#3498db" }

/- Case lemmas for the `mousemove` handler. -/

lemma mousemoveTick_launched (sq : ℚ → ℚ) (t : GState) (h : t.ballLaunched = true) :
    mousemoveTick sq t = t := by
  simp [mousemoveTick, h]

lemma mousemoveTick_fire (sq : ℚ → ℚ) (s : GState)
    (hL : s.ballLaunched = false) (hM : s.mouseOnBall = true)
    (h0 : (effPull s).1 ≠ 0) (hc : (effPull s).1 ≠ (curSign s).1) :
    mousemoveTick sq s =
      { s with initialPull := some (effPull s)
               ballLaunched := true
               ballVel := fireVel sq s.dims s.ballPos
               slingInWorld := false
               mouseOnBall := false } := by
  simp only [mousemoveTick, effPull, curSign, fireVel] at *
  split_ifs with h1 h2
  · rfl
  · exact absurd ⟨h0, hc⟩ h2
  · exact absurd ⟨hL, hM⟩ h1

lemma mousemoveTick_nofire (sq : ℚ → ℚ) (s : GState)
    (hL : s.ballLaunched = false) (hM : s.mouseOnBall = true)
    (hc : (effPull s).1 = 0 ∨ (effPull s).1 = (curSign s).1) :
    mousemoveTick sq s = { s with initialPull := some (effPull s) } := by
  simp only [mousemoveTick, effPull, curSign] at *
  split_ifs with h1 h2
  · rcases hc with hc | hc
    · exact absurd hc h2.1
    · exact absurd hc h2.2
  · rfl
  · exact absurd ⟨hL, hM⟩ h1

/-- C1: in state PULLING the overshoot launch fires on a `mousemove` tick
exactly when `initialPullSign.x ≠ 0` and `initialPullSign.x ≠
currentPullSign.x`; a purely vertical initial pull never fires the
overshoot path (the sling and velocity stay untouched) and only the
explicit `enddrag` can launch. -/
theorem c1_overshoot_condition (sq : ℚ → ℚ) (s : GState)
    (hL : s.ballLaunched = false) (hM : s.mouseOnBall = true) :
    ((mousemoveTick sq s).ballLaunched = true ↔
      ((effPull s).1 ≠ 0 ∧ (effPull s).1 ≠ (curSign s).1))
    ∧ ((effPull s).1 = 0 →
        (mousemoveTick sq s).ballLaunched = false ∧
        (mousemoveTick sq s).slingInWorld = s.slingInWorld ∧
        (mousemoveTick sq s).ballVel = s.ballVel ∧
        (enddrag1 sq true s).ballLaunched = true) := by
  constructor
  · constructor
    · intro hfire
      by_contra hcon
      rw [not_and_or, not_not, not_not] at hcon
      rw [mousemoveTick_nofire sq s hL hM hcon] at hfire
      simp only at hfire
      rw [hL] at hfire
      exact Bool.false_ne_true hfire
    · intro hcond
      rw [mousemoveTick_fire sq s hL hM hcond.1 hcond.2]
  · intro h0
    have hno := mousemoveTick_nofire sq s hL hM (Or.inl h0)
    refine ⟨?_, ?_, ?_, ?_⟩
    · rw [hno]; exact hL
    · rw [hno]
    · rw [hno]
    · simp [enddrag1, hL]

/-- Witness for C1: with dimensions 800×600 (anchor (160, 480)), a gesture
pulled left that now sits at x = 200 fires; a vertical gesture at
x = 160 does not. -/
theorem c1_overshoot_condition_witness :
    (mousemoveTick (fun _ => 0) sFire).ballLaunched = true ∧
    (mousemoveTick (fun _ => 0) sVert).ballLaunched = false := by
  have hf : (effPull sFire).1 ≠ 0 ∧ (effPull sFire).1 ≠ (curSign sFire).1 := by
    norm_num [effPull, curSign, sFire, initState, getGameDimensions, signQ]
  have hv : (effPull sVert).1 = 0 := by
    norm_num [effPull, sVert, initState]
  exact ⟨(c1_overshoot_condition (fun _ => 0) sFire rfl rfl).1.mpr hf,
         ((c1_overshoot_condition (fun _ => 0) sVert rfl rfl).2 hv).1⟩

lemma runMoves_absorb (sq : ℚ → ℚ) :
    ∀ (ps : List Vec) (t : GState), t.ballLaunched = true →
      (runMoves sq t ps).ballLaunched = true ∧ (runMoves sq t ps).ballVel = t.ballVel := by
  intro ps
  induction ps with
  | nil => intro t h; exact ⟨h, rfl⟩
  | cons p ps ih =>
    intro t h
    have h2 : ({ t with ballPos := p } : GState).ballLaunched = true := h
    simp only [runMoves]
    rw [mousemoveTick_launched sq _ h2]
    exact ⟨(ih _ h2).1, (ih _ h2).2⟩

lemma runMoves_spec (sq : ℚ → ℚ) (d : GameDims) (sp : ℤ × ℤ) (h0 : sp.1 ≠ 0) :
    ∀ (ps : List Vec) (s : GState),
      s.ballLaunched = false → s.mouseOnBall = true →
      s.initialPull = some sp → s.dims = d →
      (((runMoves sq s ps).ballLaunched = true ↔
         ∃ p ∈ ps, signQ (p.x - d.slingX) ≠ sp.1)
       ∧ ∀ pre p post, ps = pre ++ p :: post →
           (∀ q ∈ pre, signQ (q.x - d.slingX) = sp.1) →
           signQ (p.x - d.slingX) ≠ sp.1 →
           (runMoves sq s ps).ballVel = fireVel sq d p) := by
  intro ps
  induction ps with
  | nil =>
    intro s hL hM _ _
    constructor
    · simp [runMoves, hL]
    · intro pre p post hps _ _
      exact absurd hps (by simp)
  | cons p0 ps ih =>
    intro s hL hM hI hd
    have heff : effPull { s with ballPos := p0 } = sp := by
      simp [effPull, hI]
    have hcs : (curSign { s with ballPos := p0 }).1 = signQ (p0.x - d.slingX) := by
      show signQ (p0.x - s.dims.slingX) = _
      rw [hd]
    by_cases hc : signQ (p0.x - d.slingX) = sp.1
    · -- not yet crossed: the tick only re-stores the initial pull
      have hstep : mousemoveTick sq { s with ballPos := p0 } =
          { s with ballPos := p0, initialPull := some sp } := by
        have h' := mousemoveTick_nofire sq { s with ballPos := p0 } hL hM
          (Or.inr (by rw [heff, hcs]; exact hc.symm))
        rw [heff] at h'
        exact h'
      obtain ⟨ihiff, ihvel⟩ :=
        ih { s with ballPos := p0, initialPull := some sp } hL hM rfl hd
      constructor
      · simp only [runMoves]
        rw [hstep, ihiff]
        constructor
        · rintro ⟨p, hp, hcr⟩
          exact ⟨p, List.mem_cons_of_mem _ hp, hcr⟩
        · rintro ⟨p, hp, hcr⟩
          rcases List.mem_cons.mp hp with rfl | hp'
          · exact absurd hc hcr
          · exact ⟨p, hp', hcr⟩
      · intro pre p post hps hpre hcr
        cases pre with
        | nil =>
          obtain ⟨rfl, rfl⟩ : p0 = p ∧ ps = post := by simpa using hps
          exact absurd hc hcr
        | cons q pre' =>
          obtain ⟨rfl, hps'⟩ : p0 = q ∧ ps = pre' ++ p :: post := by simpa using hps
          simp only [runMoves]
          rw [hstep]
          exact ihvel pre' p post hps'
            (fun r hr => hpre r (List.mem_cons_of_mem _ hr)) hcr
    · -- crossed: the overshoot fires on this tick
      have hstep := mousemoveTick_fire sq { s with ballPos := p0 } hL hM
        (by rw [heff]; exact h0)
        (by rw [heff, hcs]; exact fun hh => hc hh.symm)
      constructor
      · simp only [runMoves]
        rw [hstep]
        constructor
        · intro _
          exact ⟨p0, List.mem_cons_self _ _, hc⟩
        · intro _
          exact (runMoves_absorb sq ps _ rfl).1
      · intro pre p post hps hpre hcr
        cases pre with
        | nil =>
          obtain ⟨rfl, rfl⟩ : p0 = p ∧ ps = post := by simpa using hps
          simp only [runMoves]
          rw [hstep, (runMoves_absorb sq ps _ rfl).2]
          show fireVel sq s.dims p0 = fireVel sq d p0
          rw [hd]
        | cons q pre' =>
          obtain ⟨rfl, _⟩ : p0 = q ∧ ps = pre' ++ p :: post := by simpa using hps
          exact absurd (hpre p0 (List.mem_cons_self _ _)) hc

/-- C10: with a non-vertical initial pull sign `sp` captured, a run of
move ticks launches exactly when some tick sees a current x-sign
different from `sp.1`; the launch velocity is the one computed at the
first such tick; and a tick with `proj.x = anchor.x` (sign 0) already
satisfies the release condition, so reaching the anchor line suffices. -/
theorem c10_first_crossing (sq : ℚ → ℚ) (d : GameDims) (sp : ℤ × ℤ)
    (s : GState) (ps : List Vec)
    (hL : s.ballLaunched = false) (hM : s.mouseOnBall = true)
    (hI : s.initialPull = some sp) (hd : s.dims = d) (h0 : sp.1 ≠ 0) :
    ((runMoves sq s ps).ballLaunched = true ↔
      ∃ p ∈ ps, signQ (p.x - d.slingX) ≠ sp.1)
    ∧ (∀ pre p post, ps = pre ++ p :: post →
        (∀ q ∈ pre, signQ (q.x - d.slingX) = sp.1) →
        signQ (p.x - d.slingX) ≠ sp.1 →
        (runMoves sq s ps).ballVel = fireVel sq d p)
    ∧ (∀ p : Vec, p.x = d.slingX → signQ (p.x - d.slingX) ≠ sp.1) := by
  refine ⟨(runMoves_spec sq d sp h0 ps s hL hM hI hd).1,
          (runMoves_spec sq d sp h0 ps s hL hM hI hd).2, ?_⟩
  intro p hp
  rw [hp]
  simp only [sub_self, signQ]
  norm_num
  exact Ne.symm h0

/-- Witness for C10: ticks at x = 100 (still left), x = 160 (exactly the
anchor line) and x = 200; the launch fires on the middle tick, with the
velocity computed there. -/
theorem c10_first_crossing_witness :
    (runMoves (fun _ => 10) sStart [⟨100, 500⟩, ⟨160, 470⟩, ⟨200, 460⟩]).ballLaunched = true ∧
    (runMoves (fun _ => 10) sStart [⟨100, 500⟩, ⟨160, 470⟩, ⟨200, 460⟩]).ballVel = ⟨0, 1/5⟩ := by
  have h := c10_first_crossing (fun _ => 10) dims800 (-1, 1) sStart
    [⟨100, 500⟩, ⟨160, 470⟩, ⟨200, 460⟩] rfl rfl rfl rfl (by decide)
  constructor
  · exact h.1.mpr ⟨⟨160, 470⟩, by simp,
      by norm_num [signQ, dims800, getGameDimensions]⟩
  · have hv := h.2.1 [⟨100, 500⟩] ⟨160, 470⟩ [⟨200, 460⟩] rfl
      (by intro q hq
          simp only [List.mem_singleton] at hq
          rw [hq]
          norm_num [signQ, dims800, getGameDimensions])
      (by norm_num [signQ, dims800, getGameDimensions])
    rw [hv]
    norm_num [fireVel, dims800, getGameDimensions, min_def]

/-- C2 (counterexample): the fixed-canvas variant's gesture-end launch is
a launch path, yet with displacement (-150, 0) (stretch 150) it assigns
velocity (-15, 0) — along the pull, not the claimed
`-pullDistance * min(stretch * 0.002, 0.3) = (45, 0)`. -/
theorem c2_counterexample :
    (⟨s2Pull.ballPos.x - 150, s2Pull.ballPos.y - (s2Pull.innerHeight - 200)⟩ : Vec) =
      ⟨-150, 0⟩ ∧
    (0 : ℚ) ≤ 150 ∧ (150 : ℚ) ^ 2 = (-150 : ℚ) ^ 2 + (0 : ℚ) ^ 2 ∧
    specLaunchVelocity ⟨-150, 0⟩ 150 = ⟨45, 0⟩ ∧
    (enddrag2 true s2Pull).ballVel = ⟨-15, 0⟩ ∧
    (enddrag2 true s2Pull).ballVel ≠ specLaunchVelocity ⟨-150, 0⟩ 150 ∧
    0 < (enddrag2 true s2Pull).ballVel.x * (-150 : ℚ) := by
  norm_num [enddrag2, s2Pull, init2State, specLaunchVelocity, min_def, Vec.mk.injEq]

/-- C2 (amended): the two launch paths of the viewport-adaptive variant do
apply the same velocity law `velocity = -pullDistance * min(stretch *
0.002, 0.3)`, whose result points opposite the pull; the fixed-canvas
variant's gesture-end launch instead applies `velocity = pullDistance *
0.1`, along the pull and uncapped. -/
theorem c2_amended_same_law (sq : ℚ → ℚ) (s : GState) (st : ℚ)
    (hL : s.ballLaunched = false) (hM : s.mouseOnBall = true)
    (h0 : (effPull s).1 ≠ 0) (hc : (effPull s).1 ≠ (curSign s).1)
    (hsq : sq (normSq (pullOf s)) = st) (hst0 : 0 ≤ st)
    (hst2 : st ^ 2 = normSq (pullOf s)) :
    (mousemoveTick sq s).ballVel = specLaunchVelocity (pullOf s) st
    ∧ (enddrag1 sq true s).ballVel = specLaunchVelocity (pullOf s) st
    ∧ (mousemoveTick sq s).ballVel = (enddrag1 sq true s).ballVel
    ∧ 0 ≤ min (st * (2 / 1000)) (3 / 10)
    ∧ (mousemoveTick sq s).ballVel.x * (pullOf s).x ≤ 0
    ∧ (mousemoveTick sq s).ballVel.y * (pullOf s).y ≤ 0 := by
  have hsf : 0 ≤ min (st * (2 / 1000)) (3 / 10) :=
    le_min (by positivity) (by norm_num)
  have hfv : fireVel sq s.dims s.ballPos = specLaunchVelocity (pullOf s) st := by
    simp only [fireVel, specLaunchVelocity, pullOf, normSq] at hsq ⊢
    rw [hsq]
  have hmv : (mousemoveTick sq s).ballVel = specLaunchVelocity (pullOf s) st := by
    rw [mousemoveTick_fire sq s hL hM h0 hc]
    exact hfv
  have hed : (enddrag1 sq true s).ballVel = specLaunchVelocity (pullOf s) st := by
    have : (enddrag1 sq true s).ballVel = fireVel sq s.dims s.ballPos := by
      simp only [enddrag1, fireVel]
      rw [if_pos ⟨trivial, hL⟩]
    rw [this]
    exact hfv
  refine ⟨hmv, hed, hmv.trans hed.symm, hsf, ?_, ?_⟩
  · rw [hmv]
    simp only [specLaunchVelocity]
    have h1 : -(pullOf s).x * min (st * (2 / 1000)) (3 / 10) * (pullOf s).x =
        -(min (st * (2 / 1000)) (3 / 10) * (pullOf s).x ^ 2) := by ring
    rw [h1]
    exact neg_nonpos_of_nonneg (mul_nonneg hsf (sq_nonneg _))
  · rw [hmv]
    simp only [specLaunchVelocity]
    have h1 : -(pullOf s).y * min (st * (2 / 1000)) (3 / 10) * (pullOf s).y =
        -(min (st * (2 / 1000)) (3 / 10) * (pullOf s).y ^ 2) := by ring
    rw [h1]
    exact neg_nonpos_of_nonneg (mul_nonneg hsf (sq_nonneg _))

/-- Witness for the amended C2: pull (-60, 80), stretch 100, factor 0.2;
both adaptive-variant paths emit velocity (12, -16). -/
theorem c2_amended_same_law_witness :
    (mousemoveTick (fun _ => 100) sDiag).ballVel = ⟨12, -16⟩ ∧
    (enddrag1 (fun _ => 100) true sDiag).ballVel = ⟨12, -16⟩ := by
  have h := c2_amended_same_law (fun _ => 100) sDiag 100 rfl rfl
    (by norm_num [effPull, sDiag, initState])
    (by norm_num [effPull, curSign, sDiag, initState, getGameDimensions, signQ])
    rfl (by norm_num)
    (by norm_num [normSq, pullOf, sDiag, initState, getGameDimensions])
  have hval : specLaunchVelocity (pullOf sDiag) 100 = ⟨12, -16⟩ := by
    norm_num [specLaunchVelocity, pullOf, sDiag, initState, getGameDimensions,
      min_def, Vec.mk.injEq]
  exact ⟨h.1.trans hval, h.2.1.trans hval⟩

/-- C3 (counterexample): at stretch 300 (twice CAP/K = 150) the squared
launch speed is 8100, strictly above the 2025 produced at stretch 150 —
the speed does not saturate, only the scale factor does. -/
theorem c3_counterexample :
    (300 : ℚ) ^ 2 = normSq (pullOf sPull300) ∧
    (150 : ℚ) ^ 2 = normSq (pullOf sPull150) ∧
    normSq ((enddrag1 (fun _ => 300) true sPull300).ballVel) = 8100 ∧
    normSq ((enddrag1 (fun _ => 150) true sPull150).ballVel) = 2025 ∧
    ¬(normSq ((enddrag1 (fun _ => 300) true sPull300).ballVel) ≤
      normSq ((enddrag1 (fun _ => 150) true sPull150).ballVel)) := by
  norm_num [enddrag1, sPull300, sPull150, initState, getGameDimensions,
    normSq, pullOf, min_def]

/-- C3 (amended): for stretch ≥ CAP/K = 150 the scale factor saturates at
CAP = 0.3, so the speed equals 0.3·stretch — growing linearly without
bound and strictly exceeding the speed produced at stretch = 150
whenever the stretch is strictly larger. -/
theorem c3_amended_saturation (sq : ℚ → ℚ) (s : GState) (st : ℚ)
    (hL : s.ballLaunched = false)
    (hsq : sq (normSq (pullOf s)) = st)
    (hst2 : st ^ 2 = normSq (pullOf s))
    (h150 : 150 ≤ st) :
    min (st * (2 / 1000)) (3 / 10) = 3 / 10
    ∧ normSq ((enddrag1 sq true s).ballVel) = ((3 / 10) * st) ^ 2
    ∧ (150 < st →
        ((3 / 10) * (150 : ℚ)) ^ 2 < normSq ((enddrag1 sq true s).ballVel)) := by
  have hmin : min (st * (2 / 1000)) (3 / 10) = 3 / 10 := by
    apply min_eq_right
    linarith
  have hvel : (enddrag1 sq true s).ballVel =
      ⟨-(s.ballPos.x - s.dims.slingX) * (3 / 10),
       -(s.ballPos.y - s.dims.baseHeight) * (3 / 10)⟩ := by
    simp only [normSq, pullOf] at hsq
    simp only [enddrag1]
    rw [if_pos ⟨trivial, hL⟩]
    simp only
    rw [hsq, hmin]
  have hns : normSq ((enddrag1 sq true s).ballVel) = ((3 / 10) * st) ^ 2 := by
    rw [hvel]
    simp only [normSq, pullOf] at hst2 ⊢
    calc (-(s.ballPos.x - s.dims.slingX) * (3 / 10)) ^ 2 +
          (-(s.ballPos.y - s.dims.baseHeight) * (3 / 10)) ^ 2
        = (9 / 100) * ((s.ballPos.x - s.dims.slingX) ^ 2 +
            (s.ballPos.y - s.dims.baseHeight) ^ 2) := by ring
      _ = (9 / 100) * st ^ 2 := by rw [← hst2]
      _ = ((3 / 10) * st) ^ 2 := by ring
  refine ⟨hmin, hns, ?_⟩
  intro hgt
  rw [hns]
  nlinarith

/-- Witness for the amended C3: at stretch 300 the squared speed is
(0.3·300)² = 8100 > (0.3·150)² = 2025. -/
theorem c3_amended_saturation_witness :
    normSq ((enddrag1 (fun _ => 300) true sPull300).ballVel) =
      ((3 / 10) * (300 : ℚ)) ^ 2 ∧
    ((3 / 10) * (150 : ℚ)) ^ 2 <
      normSq ((enddrag1 (fun _ => 300) true sPull300).ballVel) := by
  have h := c3_amended_saturation (fun _ => 300) sPull300 300 rfl rfl
    (by norm_num [normSq, pullOf, sPull300, initState, getGameDimensions])
    (by norm_num)
  exact ⟨h.2.1, h.2.2 (by norm_num)⟩

/-- C5: `createBlocks` yields exactly 10 blocks; the block of index `k`
was created for the row/column pair `createRowCol k` (rows of sizes
4, 3, 2, 1 bottom-to-top) at `x = baseX + j*spacing + i*(spacing/2)`,
`y = baseY - i*spacing` with `spacing = blockWidth * 1.25`, colored
`colorSequence[i % colorSequence.length]`; and every upper-row block's x
is the midpoint of its two supporting blocks' x. -/
theorem c5_formation (d : GameDims) :
    (createBlocks d).length = 10
    ∧ (∀ k, k < 10 →
        (createBlocks d).getD k defaultBlock =
          blockAt d (createRowCol k).1 (createRowCol k).2)
    ∧ (∀ k, k < 10 →
        (createRowCol k).1 < 4 ∧ (createRowCol k).2 < 4 - (createRowCol k).1)
    ∧ (∀ i j : ℕ, i < 3 → j < 3 - i →
        2 * (blockAt d (i + 1) j).x = (blockAt d i j).x + (blockAt d i (j + 1)).x) := by
  refine ⟨rfl, ?_, ?_, ?_⟩
  · intro k hk
    interval_cases k <;>
      simp [createBlocks, createRowCol, blockAt, spacingOf, blockColors,
        Block.mk.injEq, List.range_succ]
  · intro k hk
    interval_cases k <;> decide
  · intro i j _ _
    simp only [blockAt]
    push_cast
    ring

/-- Witness for C5: at 800×600 the formation has 10 blocks; index 4 is the
first block of row 1 and sits at the midpoint of blocks 0 and 1. -/
theorem c5_formation_witness :
    (createBlocks dims800).length = 10 ∧
    (createBlocks dims800).getD 4 defaultBlock = blockAt dims800 1 0 ∧
    2 * (blockAt dims800 1 0).x = (blockAt dims800 0 0).x + (blockAt dims800 0 1).x := by
  have h := c5_formation dims800
  refine ⟨h.1, ?_, h.2.2.2 0 0 (by norm_num) (by norm_num)⟩
  have h4 := h.2.1 4 (by norm_num)
  rw [h4]
  norm_num [createRowCol]

/-- C6 (code divergence): `handleResize` derives `(row, col)` from a block
index as `(⌊k/4⌋, k % (4 - ⌊k/4⌋))`, which already at index 4 gives
(1, 1) while `createBlocks` created that block as (1, 0); so resizing an
undisturbed 800×600 formation to the same 800×600 viewport moves block 4
from x = 4705/8 to x = 5155/8 instead of re-forming the stack. -/
theorem c6_code_divergence :
    resizeRowCol 4 = (1, 1) ∧
    createRowCol 4 = (1, 0) ∧
    resizeRowCol 4 ≠ createRowCol 4 ∧
    ((initState 800 600).blocks.getD 4 defaultBlock).x = 4705 / 8 ∧
    ((handleResize 800 600 (initState 800 600)).blocks.getD 4 defaultBlock).x = 5155 / 8 ∧
    ((handleResize 800 600 (initState 800 600)).blocks.getD 4 defaultBlock).x ≠
      ((initState 800 600).blocks.getD 4 defaultBlock).x := by
  refine ⟨by decide, by decide, by decide, ?_, ?_, ?_⟩ <;>
    norm_num [handleResize, initState, createBlocks, repositionBlocks,
      resizeRowCol, getGameDimensions, blockColors, List.range_succ, min_def]

/-- C7: a viewport change never moves a LAUNCHED projectile (position,
velocity and the sling anchor it left behind are untouched), while an
unlaunched projectile is repositioned to the new anchor and the tether's
fixed endpoint is updated to the same point. -/
theorem c7_resize_projectile (w h : ℚ) (s : GState) :
    (s.ballLaunched = true →
      (handleResize w h s).ballPos = s.ballPos ∧
      (handleResize w h s).slingPointA = s.slingPointA)
    ∧ (s.ballLaunched = false →
      (handleResize w h s).ballPos =
        ⟨(getGameDimensions w h).slingX, (getGameDimensions w h).baseHeight⟩ ∧
      (handleResize w h s).slingPointA =
        ⟨(getGameDimensions w h).slingX, (getGameDimensions w h).baseHeight⟩)
    ∧ (handleResize w h s).ballVel = s.ballVel := by
  refine ⟨?_, ?_, rfl⟩
  · intro hL
    constructor <;> simp [handleResize, hL]
  · intro hL
    constructor <;> simp [handleResize, hL]

/-- Witness for C7: resizing 800×600 to 400×300 leaves the in-flight ball
at (300, 200) but moves a held ball to the new anchor (80, 240). -/
theorem c7_resize_projectile_witness :
    (handleResize 400 300 sLaunched).ballPos = ⟨300, 200⟩ ∧
    (handleResize 400 300 sLaunched).ballVel = ⟨5, -3⟩ ∧
    (handleResize 400 300 (initState 800 600)).ballPos = ⟨80, 240⟩ := by
  have h1 := (c7_resize_projectile 400 300 sLaunched).1 rfl
  have h2 := ((c7_resize_projectile 400 300 (initState 800 600)).2.1 rfl).1
  have h3 := (c7_resize_projectile 400 300 sLaunched).2.2
  refine ⟨h1.1.trans rfl, h3.trans rfl, h2.trans ?_⟩
  norm_num [getGameDimensions, Vec.mk.injEq]

/-- C9 (counterexample): called with the non-positive dimensions (0, 0),
`handleResize` is not a no-op — it moves the held ball from (160, 480)
to (0, 0) and the ground from (400, 590) to (0, -10). -/
theorem c9_counterexample :
    (handleResize 0 0 (initState 800 600)).ballPos = ⟨0, 0⟩ ∧
    (initState 800 600).ballPos = ⟨160, 480⟩ ∧
    (handleResize 0 0 (initState 800 600)).ballPos ≠ (initState 800 600).ballPos ∧
    (handleResize 0 0 (initState 800 600)).groundPos = ⟨0, -10⟩ ∧
    (initState 800 600).groundPos = ⟨400, 590⟩ := by
  norm_num [handleResize, initState, getGameDimensions, Vec.mk.injEq, min_def]

/-- C9 (amended): `handleResize` performs no dimension validation at all —
for every `(w, h)`, non-positive included, it recomputes the geometry
from `(w, h)` and repositions the ground and the unlaunched ball
accordingly (as a total function it propagates no error, but it does
not no-op either). -/
theorem c9_amended_no_validation (w h : ℚ) (s : GState) :
    (handleResize w h s).dims = getGameDimensions w h
    ∧ (handleResize w h s).groundPos = ⟨w / 2, h - 10⟩
    ∧ (handleResize w h s).groundWidth = w
    ∧ (s.ballLaunched = false →
        (handleResize w h s).ballPos = ⟨w * (2 / 10), h - h * (2 / 10)⟩) := by
  refine ⟨rfl, rfl, rfl, ?_⟩
  intro hL
  simp [handleResize, getGameDimensions, hL]

/-- Witness for the amended C9: at (0, -5) the ground is recomputed to
(0, -15) and the held ball is moved to (0, -4). -/
theorem c9_amended_no_validation_witness :
    (handleResize 0 (-5) (initState 800 600)).groundPos = ⟨0, -15⟩ ∧
    (handleResize 0 (-5) (initState 800 600)).ballPos = ⟨0, -4⟩ := by
  have h := c9_amended_no_validation 0 (-5) (initState 800 600)
  refine ⟨h.2.1.trans ?_, (h.2.2.2 rfl).trans ?_⟩ <;> norm_num [Vec.mk.injEq]

lemma createBlocks_ne_nil (d : GameDims) : createBlocks d ≠ [] := by
  intro hcon
  have h1 : (createBlocks d).length = 0 := by rw [hcon]; rfl
  rw [show (createBlocks d).length = 10 from rfl] at h1
  exact absurd h1 (by norm_num)

/-- C8 (counterexample): from the fresh 800×600 state, `resetGame` leaves
the old (still attached) sling in the world — the tether is not
destroyed; and with one leftover block outside edit mode it does not
rebuild the formation, keeping the single stray block. -/
theorem c8_counterexample :
    (initState 800 600).slingInWorld = true ∧
    (initState 800 600).orphanSlings = 0 ∧
    (resetGame (initState 800 600)).orphanSlings = 1 ∧
    ({ initState 800 600 with blocks := [leftoverBlock] }).isEditMode = false ∧
    (resetGame { initState 800 600 with blocks := [leftoverBlock] }).blocks =
      [leftoverBlock] ∧
    [leftoverBlock] ≠
      createBlocks ({ initState 800 600 with blocks := [leftoverBlock] }).dims := by
  refine ⟨rfl, rfl, ?_, rfl, ?_, ?_⟩
  · simp [resetGame, initState]
  · simp [resetGame, initState]
  · intro hcon
    have h1 : (1 : ℕ) =
        (createBlocks ({ initState 800 600 with blocks := [leftoverBlock] }).dims).length := by
      rw [← hcon]; rfl
    exact absurd (show (1 : ℕ) = 10 from h1) (by norm_num)

/-- C8 (amended): `resetGame` creates a fresh HELD projectile/tether at
the anchor and resets the gesture state, but it removes only the old
ball: an old sling still in the world is orphaned there rather than
destroyed, and the formation is rebuilt only when edit mode is off and
the block collection is empty; repeated resets yield identical
observables (projectile start position, velocity, flags, block layout),
while each one adds another orphaned tether. -/
theorem c8_amended_reset (s : GState) :
    (resetGame s).ballPos = ⟨s.dims.slingX, s.dims.baseHeight⟩
    ∧ (resetGame s).ballVel = ⟨0, 0⟩
    ∧ (resetGame s).ballLaunched = false
    ∧ (resetGame s).initialPull = none
    ∧ (resetGame s).slingInWorld = true
    ∧ (resetGame s).slingPointA = ⟨s.dims.slingX, s.dims.baseHeight⟩
    ∧ (resetGame s).orphanSlings =
        s.orphanSlings + (if s.slingInWorld = true then 1 else 0)
    ∧ resetObs (resetGame (resetGame s)) = resetObs (resetGame s) := by
  refine ⟨rfl, rfl, rfl, rfl, rfl, rfl, rfl, ?_⟩
  have hblocks : (resetGame (resetGame s)).blocks = (resetGame s).blocks := by
    by_cases he : s.isEditMode = false
    · by_cases hb : s.blocks = []
      · simp [resetGame, he, hb, createBlocks_ne_nil s.dims]
      · simp [resetGame, he, hb]
    · simp [resetGame, he]
  simp only [resetObs, Prod.mk.injEq]
  exact ⟨rfl, rfl, rfl, rfl, rfl, rfl, hblocks⟩

/-- C4 (counterexample): in the fixed-canvas variant, the gesture-end
launch sets the launched flag and applies the velocity but leaves the
sling in the world — its removal happens only in a deferred 100 ms
timeout step, so the tether lingers attached to a launched projectile
for more than one tick. -/
theorem c4_counterexample :
    (enddrag2 true s2Up).ballLaunched = true ∧
    (enddrag2 true s2Up).slingInWorld = true ∧
    (enddrag2 true s2Up).ballVel = ⟨-10, 5⟩ ∧
    (enddrag2 true s2Up).ballVel ≠ ⟨0, 0⟩ ∧
    (slingTimeout (enddrag2 true s2Up)).slingInWorld = false := by
  norm_num [enddrag2, slingTimeout, s2Up, init2State, Vec.mk.injEq]

/-- C4 (amended): in the adaptive variant the invariant "the sling is in
the world iff the current projectile is in the world and has not
launched" holds initially and is preserved by every operation, and both
launch paths clear the sling in the very step that sets the launched
flag; the fixed-canvas variant instead defers sling removal to a 100 ms
timeout after its gesture-end launch. -/
theorem c4_amended_invariant (sq : ℚ → ℚ) (w h : ℚ) (b e : Bool) (s : GState) :
    slingOk (initState w h)
    ∧ (slingOk s → slingOk (startdrag b s))
    ∧ (slingOk s → slingOk (mousemoveTick sq s))
    ∧ (slingOk s → slingOk (enddrag1 sq b s))
    ∧ (slingOk s → slingOk (resetGame s))
    ∧ (slingOk s → slingOk (handleResize w h s))
    ∧ (slingOk s → slingOk (toggleEditMode e s))
    ∧ (s.ballLaunched = false → (mousemoveTick sq s).ballLaunched = true →
        (mousemoveTick sq s).slingInWorld = false)
    ∧ (s.ballLaunched = false → (enddrag1 sq b s).ballLaunched = true →
        (enddrag1 sq b s).slingInWorld = false) := by
  refine ⟨rfl, ?_, ?_, ?_, ?_, ?_, ?_, ?_, ?_⟩
  · intro hs
    simp only [slingOk] at hs ⊢
    simp only [startdrag]
    split_ifs <;> exact hs
  · intro hs
    simp only [slingOk] at hs ⊢
    simp only [mousemoveTick]
    split_ifs <;> simp_all
  · intro hs
    simp only [slingOk] at hs ⊢
    simp only [enddrag1]
    split_ifs <;> simp_all
  · intro _
    rfl
  · intro hs
    exact hs
  · intro _
    simp only [slingOk, toggleEditMode]
    split_ifs with h1 h2
    · simp
    · simp only [Bool.not_eq_false] at h2
      simp [h2]
    · rfl
  · intro hL hf
    simp only [mousemoveTick] at hf ⊢
    split_ifs at hf ⊢ <;> simp_all
  · intro hL hf
    simp only [enddrag1] at hf ⊢
    split_ifs at hf ⊢ <;> simp_all

/-- Witness for the amended C4: the invariant holds for the fresh state
and is preserved through an overshoot launch and a reset. -/
theorem c4_amended_invariant_witness :
    slingOk (mousemoveTick (fun _ => 0) sFire) ∧ slingOk (resetGame sFire) := by
  have h := c4_amended_invariant (fun _ => 0) 800 600 true true sFire
  exact ⟨h.2.2.1 rfl, h.2.2.2.2.1 rfl⟩

end AngyBirds
